import Mathlib

/-!
Verification development for the LPS_creativ landing-page generation engine
(`LPS/backend/app/api/workflows.py` and the template preview in
`LPS/backend/app/api/templates.py`).

The Python code is shallowly embedded: the database session becomes explicit
state passing over a `DB` record, the filesystem becomes an oracle `FS`
(`Path.is_file`, `Path.read_text`, `Path.write_text`), and the endpoint
handlers become pure functions returning a structured response, the
database state after the call, and the list of files written.
-/

namespace LPS

abbrev Chars := List Char

/-! ### Python string primitives

`str.replace(old, new)`, `str.replace(old, new, 1)` and the substring test
`old in s`, modelled on `List Char`.  Python's `replace` scans left to right
and replaces non-overlapping occurrences.
-/

/-- Model of Python `s.replace(pat, repl, 1)`: replace only the first
(leftmost) occurrence of `pat`. -/
def replaceFirst (pat repl : Chars) : Chars → Chars
  | [] => []
  | c :: rest =>
    if pat.isPrefixOf (c :: rest) then repl ++ (c :: rest).drop pat.length
    else c :: replaceFirst pat repl rest

/-- Model of Python `s.replace(pat, repl)`: replace every non-overlapping
occurrence of `pat`, scanning left to right.  (The guard `pat ≠ []` only
matters for the degenerate empty pattern, which never occurs in the code.) -/
def replaceAll (pat repl : Chars) : Chars → Chars
  | [] => []
  | c :: rest =>
    if h : pat ≠ [] ∧ pat.isPrefixOf (c :: rest) then
      repl ++ replaceAll pat repl ((c :: rest).drop pat.length)
    else
      c :: replaceAll pat repl rest
termination_by s => s.length
decreasing_by
  · simp only [List.length_drop, List.length_cons]
    have : pat.length ≠ 0 := fun h0 => h.1 (List.eq_nil_of_length_eq_zero h0)
    omega
  · simp

/-- Model of Python `pat in s` (substring containment test). -/
def containsSub (pat : Chars) : Chars → Bool
  | [] => pat.isEmpty
  | c :: rest => pat.isPrefixOf (c :: rest) || containsSub pat rest

/-- `pat` occurs in `s` starting at index `i`. -/
def occursAt (pat s : Chars) (i : Nat) : Prop :=
  pat.isPrefixOf (s.drop i) = true

instance (pat s : Chars) (i : Nat) : Decidable (occursAt pat s i) := by
  unfold occursAt; infer_instance

theorem isPrefixOf_iff_exists {pat s : Chars} :
    pat.isPrefixOf s = true ↔ ∃ t, s = pat ++ t := by
  induction pat generalizing s with
  | nil => simp [List.isPrefixOf]
  | cons a as ih =>
    cases s with
    | nil => simp [List.isPrefixOf]
    | cons b bs =>
      simp only [List.isPrefixOf, Bool.and_eq_true, beq_iff_eq, ih, List.cons_append,
        List.cons.injEq]
      constructor
      · rintro ⟨rfl, t, rfl⟩; exact ⟨t, rfl, rfl⟩
      · rintro ⟨t, rfl, rfl⟩; exact ⟨rfl, t, rfl⟩

theorem isPrefixOf_nil {pat : Chars} (h : pat.isPrefixOf ([] : Chars) = true) :
    pat = [] := by
  cases pat with
  | nil => rfl
  | cons a as => simp [List.isPrefixOf] at h

theorem occursAt_containsSub {pat s : Chars} {i : Nat} (h : occursAt pat s i) :
    containsSub pat s = true := by
  induction s generalizing i with
  | nil =>
    simp only [occursAt, List.drop_nil] at h
    simp [containsSub, isPrefixOf_nil h, List.isEmpty]
  | cons c rest ih =>
    cases i with
    | zero =>
      simp only [occursAt, List.drop_zero] at h
      simp [containsSub, h]
    | succ j =>
      simp only [occursAt, List.drop_succ_cons] at h
      simp [containsSub, ih h]

theorem containsSub_occursAt {pat s : Chars} (h : containsSub pat s = true) :
    ∃ i, occursAt pat s i := by
  induction s with
  | nil =>
    simp only [containsSub, List.isEmpty_iff] at h
    exact ⟨0, by simp [occursAt, h, List.isPrefixOf]⟩
  | cons c rest ih =>
    simp only [containsSub, Bool.or_eq_true] at h
    rcases h with h | h
    · exact ⟨0, by simpa [occursAt] using h⟩
    · rcases ih h with ⟨i, hi⟩
      exact ⟨i + 1, by simpa [occursAt] using hi⟩

theorem replaceFirst_of_not_occurs {pat repl s : Chars}
    (h : ∀ i, ¬ occursAt pat s i) : replaceFirst pat repl s = s := by
  induction s with
  | nil => rfl
  | cons c rest ih =>
    have h0 : ¬ pat.isPrefixOf (c :: rest) = true := by
      have := h 0; simpa [occursAt] using this
    simp only [replaceFirst, h0, Bool.false_eq_true, if_false, List.cons.injEq, true_and]
    exact ih fun i hi => h (i + 1) (by simpa [occursAt] using hi)

theorem replaceFirst_first_occ {pat repl s : Chars} {i : Nat}
    (hpat : pat ≠ []) (hocc : occursAt pat s i)
    (hfirst : ∀ j, j < i → ¬ occursAt pat s j) :
    replaceFirst pat repl s = s.take i ++ repl ++ s.drop (i + pat.length) := by
  induction s generalizing i with
  | nil =>
    exfalso
    simp only [occursAt, List.drop_nil] at hocc
    exact hpat (isPrefixOf_nil hocc)
  | cons c rest ih =>
    cases i with
    | zero =>
      simp only [occursAt, List.drop_zero] at hocc
      simp only [replaceFirst, hocc, if_true, List.take_zero, List.nil_append,
        Nat.zero_add, List.append_assoc]
    | succ j =>
      have h0 : ¬ pat.isPrefixOf (c :: rest) = true := by
        have := hfirst 0 (Nat.succ_pos j); simpa [occursAt] using this
      simp only [replaceFirst, h0, Bool.false_eq_true, if_false]
      have hocc' : occursAt pat rest j := by simpa [occursAt] using hocc
      have hfirst' : ∀ k, k < j → ¬ occursAt pat rest k := fun k hk h =>
        hfirst (k + 1) (Nat.succ_lt_succ hk) (by simpa [occursAt] using h)
      rw [ih hocc' hfirst']
      simp [List.take_succ_cons, List.drop_succ_cons, Nat.succ_add]

/-! ### Decimal rendering of integers (Python `str(i)` / f-string interpolation)

`natStr` is computed by a fuel-based structural recursion so that concrete
instances evaluate by `decide`/`rfl`; the bridge lemma identifies it with
`Nat.digits`, whose Mathlib lemmas drive the round-trip proof.
-/

/-- Character for a decimal digit `d < 10`. -/
def digitCh (d : Nat) : Char := Char.ofNat (48 + d)

/-- Little-endian decimal digit characters of `n`, with fuel. -/
def natDigitsRev : Nat → Nat → Chars
  | 0, _ => []
  | fuel + 1, n => if n = 0 then [] else digitCh (n % 10) :: natDigitsRev fuel (n / 10)

/-- Decimal rendering of a natural number, as Python `str(n)`. -/
def natStr (n : Nat) : String :=
  if n = 0 then "0" else String.mk (natDigitsRev n n).reverse

/-- Decimal rendering of an integer, as Python `str(i)`. -/
def intStr (i : Int) : String :=
  if i < 0 then "-" ++ natStr i.natAbs else natStr i.toNat

theorem natDigitsRev_eq_digits : ∀ fuel n, n ≤ fuel →
    natDigitsRev fuel n = (Nat.digits 10 n).map digitCh := by
  intro fuel
  induction fuel with
  | zero =>
    intro n hn
    interval_cases n
    simp [natDigitsRev]
  | succ f ih =>
    intro n hn
    by_cases h0 : n = 0
    · simp [natDigitsRev, h0]
    · have hdiv : n / 10 ≤ f := by
        have : n / 10 < n := Nat.div_lt_self (Nat.pos_of_ne_zero h0) (by norm_num)
        omega
      rw [natDigitsRev, if_neg h0, ih _ hdiv,
        Nat.digits_def' (by norm_num : (1:Nat) < 10) (Nat.pos_of_ne_zero h0)]
      simp

/-- Digit value of a character, `none` when it is not an ASCII digit. -/
def charDigit (c : Char) : Option Nat :=
  if 48 ≤ c.toNat ∧ c.toNat ≤ 57 then some (c.toNat - 48) else none

/-- Parse a nonempty all-digit character list as a natural number. -/
def parseNatChars (cs : Chars) : Option Nat :=
  (cs.mapM charDigit).bind fun ds =>
    if ds.isEmpty then none else some (Nat.ofDigits 10 ds.reverse)

/-- Parse an optional minus sign followed by digits, inverse of `intStr`. -/
def parseIntChars (cs : Chars) : Option Int :=
  if cs.head? = some '-' then (parseNatChars cs.tail).map (fun n => -(Int.ofNat n))
  else (parseNatChars cs).map (fun n => Int.ofNat n)

theorem charDigit_digitCh {d : Nat} (hd : d < 10) : charDigit (digitCh d) = some d := by
  interval_cases d <;> decide

theorem mapM_charDigit_digitCh {l : List Nat} (hl : ∀ d ∈ l, d < 10) :
    (l.map digitCh).mapM charDigit = some l := by
  induction l with
  | nil => rfl
  | cons d ds ih =>
    have h1 : charDigit (digitCh d) = some d := charDigit_digitCh (hl d (by simp))
    have h2 := ih fun x hx => hl x (by simp [hx])
    simp only [List.map_cons, List.mapM_cons, h1, h2, Option.pure_def, Option.bind_some]
    rfl

theorem natStr_data (n : Nat) :
    (natStr n).data = if n = 0 then ['0'] else ((Nat.digits 10 n).map digitCh).reverse := by
  by_cases h : n = 0
  · simp [natStr, h]
  · simp [natStr, h, natDigitsRev_eq_digits n n le_rfl]

theorem parseNatChars_natStr (n : Nat) : parseNatChars (natStr n).data = some n := by
  rw [natStr_data]
  by_cases h : n = 0
  · subst h; decide
  · rw [if_neg h]
    have hlt : ∀ d ∈ Nat.digits 10 n, d < 10 := fun d hd =>
      Nat.digits_lt_base (by norm_num) hd
    have hmap : ((Nat.digits 10 n).reverse.map digitCh).mapM charDigit
        = some (Nat.digits 10 n).reverse := by
      refine mapM_charDigit_digitCh fun d hd => hlt d ?_
      simpa using hd
    have hne : Nat.digits 10 n ≠ [] := Nat.digits_ne_nil_iff_ne_zero.mpr h
    have hne' : (Nat.digits 10 n).reverse.isEmpty = false := by
      simp [List.isEmpty_iff, hne]
    unfold parseNatChars
    rw [← List.map_reverse, hmap]
    simp [hne', Nat.ofDigits_digits, hne]

theorem natStr_all_digits (n : Nat) :
    ∀ c ∈ (natStr n).data, (charDigit c).isSome := by
  rw [natStr_data]
  by_cases h : n = 0
  · simp only [h, if_true]
    intro c hc
    simp only [List.mem_singleton] at hc
    subst hc; decide
  · simp only [h, if_false]
    intro c hc
    simp only [List.mem_reverse, List.mem_map] at hc
    rcases hc with ⟨d, hd, rfl⟩
    rw [charDigit_digitCh (Nat.digits_lt_base (by norm_num) hd)]
    rfl

theorem natStr_ne_nil (n : Nat) : (natStr n).data ≠ [] := by
  rw [natStr_data]
  by_cases h : n = 0
  · simp [h]
  · simp [h, Nat.digits_ne_nil_iff_ne_zero.mpr h]

theorem natStr_head_not_minus (n : Nat) : (natStr n).data.head? ≠ some '-' := by
  intro hc
  have hmem : '-' ∈ (natStr n).data := by
    cases h : (natStr n).data with
    | nil => exact absurd h (natStr_ne_nil n)
    | cons a l => rw [h] at hc; simp at hc; simp [hc]
  have := natStr_all_digits n '-' hmem
  simp [charDigit] at this

theorem parseIntChars_intStr (i : Int) : parseIntChars (intStr i).data = some i := by
  by_cases h : i < 0
  · have hstr : intStr i = "-" ++ natStr i.natAbs := by simp [intStr, h]
    have hdata : (intStr i).data = '-' :: (natStr i.natAbs).data := by rw [hstr]; rfl
    rw [hdata, parseIntChars, if_pos (by rfl), List.tail_cons, parseNatChars_natStr,
      Option.map_some']
    congr 1
    simp only [Int.ofNat_eq_coe]
    omega
  · have hstr : intStr i = natStr i.toNat := by simp [intStr, h]
    rw [hstr, parseIntChars, if_neg (natStr_head_not_minus i.toNat), parseNatChars_natStr,
      Option.map_some']
    congr 1
    simp only [Int.ofNat_eq_coe]
    omega

/-! ### JSON encoding of the selected-video id list

`json.dumps(selected_ids, ensure_ascii=False)` for a list of Python ints
renders as `[1, 2, 3]` (comma-space separated decimal integers).
`jsonParseInts` is the decoder used to state the round-trip property.
-/

/-- Comma-space joined decimal renderings, as Python's repr of an int list
between the brackets. -/
def joinIds : List Int → String
  | [] => ""
  | [i] => intStr i
  | i :: j :: rest => intStr i ++ ", " ++ joinIds (j :: rest)

/-- Model of Python `json.dumps(ids, ensure_ascii=False)` for an int list. -/
def jsonDumpsInts (l : List Int) : String :=
  "[" ++ joinIds l ++ "]"

/-- Split a character list on every `", "` separator. -/
def splitSep : Chars → List Chars
  | [] => [[]]
  | [c] => [[c]]
  | c :: d :: rest =>
    if c = ',' ∧ d = ' ' then [] :: splitSep rest
    else (splitSep (d :: rest)).modifyHead (c :: ·)

/-- Decoder for the injected JSON body: inverse of `jsonDumpsInts`. -/
def jsonParseInts (s : String) : Option (List Int) :=
  match s.data with
  | '[' :: rest =>
    match rest.getLast? with
    | some ']' =>
      if rest.dropLast.isEmpty then some []
      else (splitSep rest.dropLast).mapM parseIntChars
    | _ => none
  | _ => none

theorem splitSep_no_comma {p : Chars} (hp : ',' ∉ p) : splitSep p = [p] := by
  induction p with
  | nil => rfl
  | cons c rest ih =>
    cases rest with
    | nil => rfl
    | cons d rest' =>
      have hc : ¬ (c = ',' ∧ d = ' ') := fun h => hp (by simp [h.1])
      have ih' := ih (fun h => hp (List.mem_cons_of_mem _ h))
      simp [splitSep, hc, ih']

theorem splitSep_append {p r : Chars} (hp : ',' ∉ p) :
    splitSep (p ++ ',' :: ' ' :: r) = p :: splitSep r := by
  induction p with
  | nil => simp [splitSep]
  | cons c p' ih =>
    have hc : c ≠ ',' := fun h => hp (by simp [h])
    have ih' := ih (fun h => hp (List.mem_cons_of_mem _ h))
    cases p' with
    | nil => simp [splitSep, hc, ih']
    | cons e p'' =>
      simp only [List.cons_append] at ih' ⊢
      simp [splitSep, hc, ih']

theorem intStr_no_comma (i : Int) : ',' ∉ (intStr i).data := by
  intro hmem
  have hnat : ∀ n : Nat, ',' ∉ (natStr n).data := by
    intro n hn
    have := natStr_all_digits n ',' hn
    simp [charDigit] at this
  by_cases h : i < 0
  · have : intStr i = "-" ++ natStr i.natAbs := by simp [intStr, h]
    rw [this] at hmem
    have : (("-" ++ natStr i.natAbs)).data = '-' :: (natStr i.natAbs).data := rfl
    rw [this] at hmem
    rcases List.mem_cons.mp hmem with h1 | h1
    · exact absurd h1 (by decide)
    · exact hnat _ h1
  · have : intStr i = natStr i.toNat := by simp [intStr, h]
    rw [this] at hmem
    exact hnat _ hmem

theorem intStr_ne_nil (i : Int) : (intStr i).data ≠ [] := by
  by_cases h : i < 0
  · have : intStr i = "-" ++ natStr i.natAbs := by simp [intStr, h]
    rw [this]
    intro hc
    exact List.cons_ne_nil _ _ hc
  · have : intStr i = natStr i.toNat := by simp [intStr, h]
    rw [this]
    exact natStr_ne_nil _

theorem splitSep_joinIds : ∀ l : List Int, l ≠ [] →
    splitSep (joinIds l).data = l.map (fun i => (intStr i).data)
  | [], h => absurd rfl h
  | [i], _ => by
    simp [joinIds, splitSep_no_comma (intStr_no_comma i)]
  | i :: j :: rest, _ => by
    have ih := splitSep_joinIds (j :: rest) (List.cons_ne_nil _ _)
    have hdata : (joinIds (i :: j :: rest)).data
        = (intStr i).data ++ ',' :: ' ' :: (joinIds (j :: rest)).data := by
      show (intStr i ++ ", " ++ joinIds (j :: rest)).data = _
      simp [String.data_append]
    rw [joinIds] at hdata ⊢
    rw [hdata, splitSep_append (intStr_no_comma i), ih]
    simp

theorem mapM_parseIntChars (l : List Int) :
    (l.map (fun i => (intStr i).data)).mapM parseIntChars = some l := by
  induction l with
  | nil => rfl
  | cons i rest ih =>
    simp only [List.map_cons, List.mapM_cons, parseIntChars_intStr, ih,
      Option.pure_def, Option.bind_some]
    rfl

theorem joinIds_ne_nil {l : List Int} (h : l ≠ []) : (joinIds l).data ≠ [] := by
  match l with
  | [i] =>
    simp only [joinIds]
    exact intStr_ne_nil i
  | i :: j :: rest =>
    simp only [joinIds]
    intro hc
    have : (intStr i ++ (", " ++ joinIds (j :: rest))).data
        = (intStr i).data ++ (", " ++ joinIds (j :: rest)).data := String.data_append ..
    rw [String.append_assoc] at hc
    rw [this] at hc
    exact intStr_ne_nil i (List.append_eq_nil.mp hc).1

theorem jsonParseInts_jsonDumpsInts (l : List Int) :
    jsonParseInts (jsonDumpsInts l) = some l := by
  have hdata : (jsonDumpsInts l).data = '[' :: ((joinIds l).data ++ [']']) := by
    show ("[" ++ joinIds l ++ "]").data = _
    simp [String.data_append]
  rw [jsonParseInts]
  rw [hdata]
  simp only [List.getLast?_concat, List.dropLast_concat]
  by_cases h : l = []
  · subst h
    simp [joinIds]
  · have hne : (joinIds l).data ≠ [] := joinIds_ne_nil h
    rw [if_neg (by simpa [List.isEmpty_iff] using hne)]
    rw [splitSep_joinIds l h, mapM_parseIntChars]

/-! ### Page rewriter (`generate_landing_pages` / `preview_landing_page` body)

Textual rewriting of the template HTML: `href="./` and `src="./` prefix
substitution, then injection of the selected-video JSON script immediately
before the first `</body>` (appended at the end when no `</body>` occurs).
-/

def bodyClose : Chars := "</body>".data

/-- The injected script tag, body = JSON-encoded selected ids. -/
def scriptSnippet (ids : List Int) : Chars :=
  ("<script id=\"lps-selected-videos\" type=\"application/json\">"
    ++ jsonDumpsInts ids ++ "</script>").data

/-- The `</body>`-insertion step of the rewriter:
`html.replace("</body>", snippet + "\n</body>", 1)` when `"</body>" in html`,
else `html + snippet`. -/
def injectSnippet (ids : List Int) (html : Chars) : Chars :=
  if containsSub bodyClose html then
    replaceFirst bodyClose (scriptSnippet ids ++ '\n' :: bodyClose) html
  else
    html ++ scriptSnippet ids

/-- Full textual rewrite: static-asset prefix substitution for `href="./`
and `src="./`, then the script injection. -/
def rewriteHtml ( static_prefix : String) (ids : List Int) (html : Chars) : Chars :=
  let h1 := replaceAll ("href=\"./").data ("href=\"" ++ static_prefix ++ "/").data html
  let h2 := replaceAll ("src=\"./").data ("src=\"" ++ static_prefix ++ "/").data h1
  injectSnippet ids h2

/-! ### Filesystem oracle and path resolution -/

/-- Filesystem oracle for one request.  `is_file p = none` models
`Path.is_file` raising (the code catches and skips the candidate);
`read_text p = none` models a read failure; `write_ok p = false` models
`write_text` raising. -/
structure FS where
  is_file : String → Option Bool
  read_text : String → Option String
  write_ok : String → Bool

/-- The fixed roots the handlers derive from `__file__`:
`project_root = backend_root.parent`, `repo_root = project_root.parent`,
`templates_root = project_root / "templates"`,
`generated_root = backend_root / "generated"`. -/
structure Env where
  project_root : String
  repo_root : String
  templates_root : String
  generated_root : String

/-- Python `pathlib` `root / p`: an absolute right operand replaces the root. -/
def pathJoin (root p : String) : String :=
  match p.data with
  | '/' :: _ => p
  | _ => root ++ "/" ++ p

/-- The four candidate locations, in the fixed priority order of the source. -/
def candidatePaths (env : Env) (raw : String) : List String :=
  [raw,
   pathJoin env.project_root raw,
   pathJoin env.repo_root raw,
   pathJoin env.templates_root raw]

/-- The resolution loop: first candidate whose `is_file()` is true;
candidates where `is_file()` raises are skipped. -/
def findFirstFile (fs : FS) : List String → Option String
  | [] => none
  | p :: rest =>
    match fs.is_file p with
    | some true => some p
    | _ => findFirstFile fs rest

/-- Resolve a stored template `html_file_path` against the four candidates. -/
def resolve_html_path (fs : FS) (env : Env) (raw : String) : Option String :=
  findFirstFile fs (candidatePaths env raw)

/-- Static-asset prefix computation.  `none` or `""` (both falsy in Python)
leave the default `/templates`; an absolute path is taken relative to the
templates root when it lies under it (otherwise the silent `/templates`
fallback); a relative path `s` yields `/templates/s`.  (Pure-`pathlib`
normalization of `.` segments is not modelled.) -/
def static_prefix_for (env : Env) (static_assets_path : Option String) : String :=
  match static_assets_path with
  | none => "/templates"
  | some s =>
    if s = "" then "/templates"
    else
      match s.data with
      | '/' :: _ =>
        if (env.templates_root ++ "/").isPrefixOf s then
          "/templates/" ++ s.drop (env.templates_root ++ "/").length
        else "/templates"
      | _ => "/templates/" ++ s

/-! ### Data model

Rows of the `workflow`, `template`, `landing_page` and `video` tables, and
the database state visible to one request.  `next_landing_page_id` models
the autoincrement id allocated by `db.flush()`.
-/

structure Template where
  id : Int
  html_file_path : String
  static_assets_path : Option String
  max_videos : Nat
deriving DecidableEq, Repr

structure Workflow where
  id : Int
  status : String
deriving DecidableEq, Repr

structure LandingPage where
  id : Int
  workflow_id : Int
  template_id : Int
  selected_video_ids : List Int
  generated_page_url : String
deriving DecidableEq, Repr

structure Video where
  id : Int
deriving DecidableEq, Repr

structure DB where
  videos : List Video
  templates : List Template
  workflows : List Workflow
  landing_pages : List LandingPage
  next_landing_page_id : Int
deriving DecidableEq, Repr

structure WorkflowGenerateRequest where
  video_ids : List Int
  template_ids : List Int
deriving DecidableEq, Repr

structure WorkflowPreviewRequest where
  video_ids : List Int
  template_id : Int
deriving DecidableEq, Repr

/-! ### Structured failure reasons

Each constructor corresponds to one `code=1` early return of
`generate_landing_pages` / `preview_landing_page`, carrying exactly the
data interpolated into the response's message string. -/

inductive GenError where
  | workflowNotFound (workflow_id : Int)
  | workflowNotDraft (workflow_id : Int)
  | templatesNotFound
  | insufficientVideos (template_id : Int) (required : Nat) (supplied : Nat)
  | duplicateLandingPages (template_ids : List Int)
  | templateNotFound (template_id : Int)
  | htmlFileNotFound (html_file_path : String)
  | htmlFileReadError
  | outputWriteError
deriving DecidableEq, Repr

/-- The message string of each failure response, as built by the source's
f-strings.  The read/write failure messages interpolate the caught
exception's text, which the embedding cannot model; they are rendered
without it. -/
def error_message : GenError → String
  | .workflowNotFound wid => "workflow " ++ intStr wid ++ " not found"
  | .workflowNotDraft wid => "workflow " ++ intStr wid ++ " is not in draft status"
  | .templatesNotFound => "some templates not found"
  | .insufficientVideos tid req sup =>
      "模板 " ++ intStr tid ++ " 需要至少 " ++ natStr req
        ++ " 个视频，当前仅选择了 " ++ natStr sup ++ " 个"
  | .duplicateLandingPages tids =>
      "以下模板在该工作流下已存在落地页实例，无法重复生成：" ++ jsonDumpsInts tids
  | .templateNotFound tid => "template " ++ intStr tid ++ " not found"
  | .htmlFileNotFound p => "template html file not found for path: " ++ p
  | .htmlFileReadError => "failed to read template html file"
  | .outputWriteError => "failed to write generated html file"

/-- Outcome of the per-template loop: created landing pages, the next id
to allocate, and the files written so far (a failed batch keeps the files
already written by earlier iterations — the accepted orphan-file risk). -/
inductive BatchResult where
  | ok (pages : List LandingPage) (next_id : Int) (writes : List (String × String))
  | fail (e : GenError) (writes : List (String × String))
deriving Repr

/-- The per-template body of the generation loop: allocate the id
(`db.flush()`), resolve and read the template HTML, rewrite, write
`generated/{workflow_id}/{id}.html`, and record the access URL. -/
def processTemplates (fs : FS) (env : Env) (workflow_id : Int)
    (video_ids : List Int) : List Template → Int → BatchResult
  | [], next_id => .ok [] next_id []
  | t :: rest, next_id =>
    let selected := video_ids.take t.max_videos
    match resolve_html_path fs env t.html_file_path with
    | none => .fail (.htmlFileNotFound t.html_file_path) []
    | some html_path =>
      match fs.read_text html_path with
      | none => .fail .htmlFileReadError []
      | some html =>
        let content := rewriteHtml (static_prefix_for env t.static_assets_path)
          selected html.data
        let out := env.generated_root ++ "/" ++ intStr workflow_id ++ "/"
          ++ intStr next_id ++ ".html"
        if fs.write_ok out then
          let page : LandingPage :=
            { id := next_id, workflow_id := workflow_id, template_id := t.id,
              selected_video_ids := selected,
              generated_page_url := "/generated/" ++ intStr workflow_id ++ "/"
                ++ intStr next_id ++ ".html" }
          match processTemplates fs env workflow_id video_ids rest (next_id + 1) with
          | .ok pages n ws => .ok (page :: pages) n ((out, String.mk content) :: ws)
          | .fail e ws => .fail e ((out, String.mk content) :: ws)
        else .fail .outputWriteError []

/-- `POST /workflows/{workflow_id}/generate`.  Returns the response, the
database state after the call (the session's rollback restores `db` on any
failure; the final commit applies all staged changes at once), and the
files written. -/
def generate_landing_pages (fs : FS) (env : Env) (db : DB) (workflow_id : Int)
    (payload : WorkflowGenerateRequest) :
    Except GenError (List LandingPage) × DB × List (String × String) :=
  match db.workflows.find? (fun w => w.id = workflow_id) with
  | none => (.error (.workflowNotFound workflow_id), db, [])
  | some w =>
    if w.status ≠ "draft" then (.error (.workflowNotDraft workflow_id), db, [])
    else if (db.templates.filter (fun t => t.id ∈ payload.template_ids)).length
        ≠ payload.template_ids.dedup.length then
      (.error .templatesNotFound, db, [])
    else
      match (db.templates.filter (fun t => t.id ∈ payload.template_ids)).find?
          (fun t => payload.video_ids.length < t.max_videos) with
      | some t =>
        (.error (.insufficientVideos t.id t.max_videos payload.video_ids.length), db, [])
      | none =>
        if ((db.landing_pages.filter (fun lp =>
            lp.workflow_id = workflow_id ∧ lp.template_id ∈ payload.template_ids)).map
            (fun lp => lp.template_id)).dedup ≠ [] then
          (.error (.duplicateLandingPages
            (((db.landing_pages.filter (fun lp =>
              lp.workflow_id = workflow_id ∧ lp.template_id ∈ payload.template_ids)).map
              (fun lp => lp.template_id)).dedup.insertionSort (· ≤ ·))), db, [])
        else
          match processTemplates fs env workflow_id payload.video_ids
              (db.templates.filter (fun t => t.id ∈ payload.template_ids))
              db.next_landing_page_id with
          | .fail e ws => (.error e, db, ws)
          | .ok pages next ws =>
            (.ok pages,
             { db with
                 workflows := db.workflows.map (fun w2 =>
                   if w2.id = workflow_id then { w2 with status := "pending_ad" } else w2),
                 landing_pages := db.landing_pages ++ pages,
                 next_landing_page_id := next },
             ws)

/-- `POST /workflows/preview`.  `token` stands for the `uuid4().hex` drawn
for the preview filename.  The handler never stages a database mutation,
so the returned state is the input state. -/
def preview_landing_page (fs : FS) (env : Env) (db : DB)
    (payload : WorkflowPreviewRequest) (token : String) :
    Except GenError String × DB × List (String × String) :=
  match db.templates.find? (fun t => t.id = payload.template_id) with
  | none => (.error (.templateNotFound payload.template_id), db, [])
  | some t =>
    if payload.video_ids.length < t.max_videos then
      (.error (.insufficientVideos t.id t.max_videos payload.video_ids.length), db, [])
    else
      let selected := payload.video_ids.take t.max_videos
      match resolve_html_path fs env t.html_file_path with
      | none => (.error (.htmlFileNotFound t.html_file_path), db, [])
      | some html_path =>
        match fs.read_text html_path with
        | none => (.error .htmlFileReadError, db, [])
        | some html =>
          let content := rewriteHtml (static_prefix_for env t.static_assets_path)
            selected html.data
          let filename := intStr t.id ++ "_" ++ token ++ ".html"
          let out := env.generated_root ++ "/preview/" ++ filename
          if fs.write_ok out then
            (.ok ("/generated/preview/" ++ filename), db, [(out, String.mk content)])
          else (.error .outputWriteError, db, [])

/-! ### Database wellformedness (primary key / unique constraint invariants) -/

/-- `template.id` is a primary key. -/
def templatesNodup (db : DB) : Prop := (db.templates.map (fun t => t.id)).Nodup

/-- The `uq_workflow_template` unique constraint on `landing_page`. -/
def landingPagePairsNodup (l : List LandingPage) : Prop :=
  (l.map (fun lp => (lp.workflow_id, lp.template_id))).Nodup

/-! ### Batch characterization -/

/-- The landing pages a fully successful batch creates, one per template in
order, with ids allocated consecutively. -/
def batchPages (workflow_id : Int) (video_ids : List Int) :
    List Template → Int → List LandingPage
  | [], _ => []
  | t :: rest, n =>
    { id := n, workflow_id := workflow_id, template_id := t.id,
      selected_video_ids := video_ids.take t.max_videos,
      generated_page_url := "/generated/" ++ intStr workflow_id ++ "/"
        ++ intStr n ++ ".html" }
      :: batchPages workflow_id video_ids rest (n + 1)

theorem processTemplates_ok_inv {fs env workflow_id video_ids}
    : ∀ {ts : List Template} {n : Int} {pages n' ws},
    processTemplates fs env workflow_id video_ids ts n = .ok pages n' ws →
    pages = batchPages workflow_id video_ids ts n ∧ n' = n + ts.length := by
  intro ts
  induction ts with
  | nil =>
    intro n pages n' ws h
    rw [processTemplates] at h
    cases h
    simp [batchPages]
  | cons t rest ih =>
    intro n pages n' ws h
    rw [processTemplates] at h
    cases hres : resolve_html_path fs env t.html_file_path with
    | none => simp only [hres] at h; cases h
    | some hp =>
      simp only [hres] at h
      cases hread : fs.read_text hp with
      | none => simp only [hread] at h; cases h
      | some html =>
        simp only [hread] at h
        split at h
        · split at h
          · rename_i heq
            cases h
            rcases ih heq with ⟨hpages, hn⟩
            subst hpages
            refine ⟨rfl, ?_⟩
            simp only [List.length_cons]
            omega
          · cases h
        · cases h

theorem processTemplates_ok_of {fs env workflow_id video_ids}
    (hw : ∀ p, fs.write_ok p = true)
    : ∀ (ts : List Template) (n : Int),
    (∀ t ∈ ts, ((resolve_html_path fs env t.html_file_path).bind fs.read_text).isSome) →
    ∃ ws, processTemplates fs env workflow_id video_ids ts n
      = .ok (batchPages workflow_id video_ids ts n) (n + ts.length) ws := by
  intro ts
  induction ts with
  | nil =>
    intro n _
    exact ⟨[], by simp [processTemplates, batchPages]⟩
  | cons t rest ih =>
    intro n hfs
    have ht := hfs t (by simp)
    cases hres : resolve_html_path fs env t.html_file_path with
    | none => simp [hres] at ht
    | some hp =>
      cases hread : fs.read_text hp with
      | none => simp [hres, hread] at ht
      | some html =>
        rcases ih (n + 1) (fun t' ht' => hfs t' (by simp [ht'])) with ⟨ws, hrest⟩
        have harith : n + ((t :: rest).length : Int) = n + 1 + rest.length := by
          simp only [List.length_cons]
          omega
        refine ⟨(env.generated_root ++ "/" ++ intStr workflow_id ++ "/" ++ intStr n
            ++ ".html",
          String.mk (rewriteHtml (static_prefix_for env t.static_assets_path)
            (video_ids.take t.max_videos) html.data)) :: ws, ?_⟩
        rw [processTemplates]
        simp only [hres, hread, hw, if_true, hrest, batchPages, harith]

theorem generate_error_rollback {fs env db workflow_id payload e db' ws}
    (h : generate_landing_pages fs env db workflow_id payload = (.error e, db', ws)) :
    db' = db := by
  unfold generate_landing_pages at h
  cases hfind : db.workflows.find? (fun w => w.id = workflow_id) with
  | none => simp only [hfind] at h; cases h; rfl
  | some w =>
    simp only [hfind] at h
    by_cases hdraft : w.status ≠ "draft"
    · rw [if_pos hdraft] at h; cases h; rfl
    · rw [if_neg hdraft] at h
      by_cases hcount : (db.templates.filter (fun t => t.id ∈ payload.template_ids)).length
          ≠ payload.template_ids.dedup.length
      · rw [if_pos hcount] at h; cases h; rfl
      · rw [if_neg hcount] at h
        cases hcap : (db.templates.filter (fun t => t.id ∈ payload.template_ids)).find?
            (fun t => payload.video_ids.length < t.max_videos) with
        | some t => simp only [hcap] at h; cases h; rfl
        | none =>
          simp only [hcap] at h
          by_cases hex : ((db.landing_pages.filter (fun lp =>
              lp.workflow_id = workflow_id ∧ lp.template_id ∈ payload.template_ids)).map
              (fun lp => lp.template_id)).dedup ≠ []
          · rw [if_pos hex] at h; cases h; rfl
          · rw [if_neg hex] at h
            cases hproc : processTemplates fs env workflow_id payload.video_ids
                (db.templates.filter (fun t => t.id ∈ payload.template_ids))
                db.next_landing_page_id with
            | fail e2 ws2 => simp only [hproc] at h; cases h; rfl
            | ok pages next ws2 => simp only [hproc] at h; cases h

theorem generate_workflow_not_found {fs env db workflow_id payload}
    (hfind : db.workflows.find? (fun w => w.id = workflow_id) = none) :
    generate_landing_pages fs env db workflow_id payload
      = (.error (.workflowNotFound workflow_id), db, []) := by
  unfold generate_landing_pages
  simp only [hfind]

theorem generate_not_draft {fs env db workflow_id payload w}
    (hfind : db.workflows.find? (fun w => w.id = workflow_id) = some w)
    (hdraft : w.status ≠ "draft") :
    generate_landing_pages fs env db workflow_id payload
      = (.error (.workflowNotDraft workflow_id), db, []) := by
  unfold generate_landing_pages
  simp only [hfind]
  rw [if_pos hdraft]

theorem generate_templates_not_found {fs env db workflow_id payload w}
    (hfind : db.workflows.find? (fun w => w.id = workflow_id) = some w)
    (hdraft : w.status = "draft")
    (hcount : (db.templates.filter (fun t => t.id ∈ payload.template_ids)).length
        ≠ payload.template_ids.dedup.length) :
    generate_landing_pages fs env db workflow_id payload
      = (.error .templatesNotFound, db, []) := by
  unfold generate_landing_pages
  simp only [hfind]
  rw [if_neg (by simp [hdraft]), if_pos hcount]

theorem generate_capacity_violation {fs env db workflow_id payload w t}
    (hfind : db.workflows.find? (fun w => w.id = workflow_id) = some w)
    (hdraft : w.status = "draft")
    (hcount : (db.templates.filter (fun t => t.id ∈ payload.template_ids)).length
        = payload.template_ids.dedup.length)
    (hcap : (db.templates.filter (fun t => t.id ∈ payload.template_ids)).find?
        (fun t => payload.video_ids.length < t.max_videos) = some t) :
    generate_landing_pages fs env db workflow_id payload
      = (.error (.insufficientVideos t.id t.max_videos payload.video_ids.length), db, []) := by
  unfold generate_landing_pages
  simp only [hfind]
  rw [if_neg (by simp [hdraft]), if_neg (by simp [hcount])]
  simp only [hcap]

theorem generate_duplicate {fs env db workflow_id payload w}
    (hfind : db.workflows.find? (fun w => w.id = workflow_id) = some w)
    (hdraft : w.status = "draft")
    (hcount : (db.templates.filter (fun t => t.id ∈ payload.template_ids)).length
        = payload.template_ids.dedup.length)
    (hcap : (db.templates.filter (fun t => t.id ∈ payload.template_ids)).find?
        (fun t => payload.video_ids.length < t.max_videos) = none)
    (hex : ((db.landing_pages.filter (fun lp =>
        lp.workflow_id = workflow_id ∧ lp.template_id ∈ payload.template_ids)).map
        (fun lp => lp.template_id)).dedup ≠ []) :
    generate_landing_pages fs env db workflow_id payload
      = (.error (.duplicateLandingPages
          (((db.landing_pages.filter (fun lp =>
            lp.workflow_id = workflow_id ∧ lp.template_id ∈ payload.template_ids)).map
            (fun lp => lp.template_id)).dedup.insertionSort (· ≤ ·))), db, []) := by
  unfold generate_landing_pages
  simp only [hfind]
  rw [if_neg (by simp [hdraft]), if_neg (by simp [hcount])]
  simp only [hcap]
  rw [if_pos hex]

theorem generate_success {fs env db workflow_id payload w pages next ws}
    (hfind : db.workflows.find? (fun w => w.id = workflow_id) = some w)
    (hdraft : w.status = "draft")
    (hcount : (db.templates.filter (fun t => t.id ∈ payload.template_ids)).length
        = payload.template_ids.dedup.length)
    (hcap : (db.templates.filter (fun t => t.id ∈ payload.template_ids)).find?
        (fun t => payload.video_ids.length < t.max_videos) = none)
    (hex : ((db.landing_pages.filter (fun lp =>
        lp.workflow_id = workflow_id ∧ lp.template_id ∈ payload.template_ids)).map
        (fun lp => lp.template_id)).dedup = [])
    (hproc : processTemplates fs env workflow_id payload.video_ids
        (db.templates.filter (fun t => t.id ∈ payload.template_ids))
        db.next_landing_page_id = .ok pages next ws) :
    generate_landing_pages fs env db workflow_id payload =
      (.ok pages,
       { db with
           workflows := db.workflows.map (fun w2 =>
             if w2.id = workflow_id then { w2 with status := "pending_ad" } else w2),
           landing_pages := db.landing_pages ++ pages,
           next_landing_page_id := next },
       ws) := by
  unfold generate_landing_pages
  simp only [hfind]
  rw [if_neg (by simp [hdraft]), if_neg (by simp [hcount])]
  simp only [hcap]
  rw [if_neg (not_ne_iff.mpr hex)]
  simp only [hproc]

theorem generate_ok_inv {fs env db workflow_id payload pages db' ws}
    (h : generate_landing_pages fs env db workflow_id payload = (.ok pages, db', ws)) :
    ∃ w next,
      db.workflows.find? (fun w => w.id = workflow_id) = some w
      ∧ w.status = "draft"
      ∧ (db.templates.filter (fun t => t.id ∈ payload.template_ids)).length
          = payload.template_ids.dedup.length
      ∧ ((db.landing_pages.filter (fun lp =>
          lp.workflow_id = workflow_id ∧ lp.template_id ∈ payload.template_ids)).map
          (fun lp => lp.template_id)).dedup = []
      ∧ pages = batchPages workflow_id payload.video_ids
          (db.templates.filter (fun t => t.id ∈ payload.template_ids))
          db.next_landing_page_id
      ∧ db' = { db with
          workflows := db.workflows.map (fun w2 =>
            if w2.id = workflow_id then { w2 with status := "pending_ad" } else w2),
          landing_pages := db.landing_pages ++ pages,
          next_landing_page_id := next } := by
  unfold generate_landing_pages at h
  cases hfind : db.workflows.find? (fun w => w.id = workflow_id) with
  | none => simp only [hfind] at h; cases h
  | some w =>
    simp only [hfind] at h
    by_cases hdraft : w.status ≠ "draft"
    · rw [if_pos hdraft] at h; cases h
    · rw [if_neg hdraft] at h
      by_cases hcount : (db.templates.filter (fun t => t.id ∈ payload.template_ids)).length
          ≠ payload.template_ids.dedup.length
      · rw [if_pos hcount] at h; cases h
      · rw [if_neg hcount] at h
        cases hcap : (db.templates.filter (fun t => t.id ∈ payload.template_ids)).find?
            (fun t => payload.video_ids.length < t.max_videos) with
        | some t => simp only [hcap] at h; cases h
        | none =>
          simp only [hcap] at h
          by_cases hex : ((db.landing_pages.filter (fun lp =>
              lp.workflow_id = workflow_id ∧ lp.template_id ∈ payload.template_ids)).map
              (fun lp => lp.template_id)).dedup ≠ []
          · rw [if_pos hex] at h; cases h
          · rw [if_neg hex] at h
            cases hproc : processTemplates fs env workflow_id payload.video_ids
                (db.templates.filter (fun t => t.id ∈ payload.template_ids))
                db.next_landing_page_id with
            | fail e2 ws2 => simp only [hproc] at h; cases h
            | ok pages2 next2 ws2 =>
              simp only [hproc] at h
              cases h
              rcases processTemplates_ok_inv hproc with ⟨hpages, _⟩
              exact ⟨w, next2, rfl, not_not.mp hdraft, not_not.mp hcount,
                not_not.mp hex, hpages, rfl⟩

/-! ### Generic helper lemmas -/

theorem findFirstFile_at {fs : FS} :
    ∀ {cs : List String} {i : Nat} (hi : i < cs.length),
    fs.is_file (cs.get ⟨i, hi⟩) = some true →
    (∀ j, (hj : j < i) → fs.is_file (cs.get ⟨j, Nat.lt_trans hj hi⟩) ≠ some true) →
    findFirstFile fs cs = some (cs.get ⟨i, hi⟩) := by
  intro cs
  induction cs with
  | nil => intro i hi; exact absurd hi (Nat.not_lt_zero i)
  | cons p rest ih =>
    intro i hi hfile hbefore
    cases i with
    | zero =>
      rw [findFirstFile]
      simp only [List.get] at hfile ⊢
      rw [hfile]
    | succ j =>
      have h0 : fs.is_file p ≠ some true := hbefore 0 (Nat.succ_pos j)
      rw [findFirstFile]
      cases hp : fs.is_file p with
      | none =>
        exact ih (Nat.lt_of_succ_lt_succ hi) hfile
          (fun k hk => hbefore (k + 1) (Nat.succ_lt_succ hk))
      | some b =>
        cases b with
        | false =>
          exact ih (Nat.lt_of_succ_lt_succ hi) hfile
            (fun k hk => hbefore (k + 1) (Nat.succ_lt_succ hk))
        | true => exact absurd hp h0

theorem findFirstFile_none {fs : FS} :
    ∀ {cs : List String}, (∀ p ∈ cs, fs.is_file p ≠ some true) →
    findFirstFile fs cs = none := by
  intro cs
  induction cs with
  | nil => intro _; rfl
  | cons p rest ih =>
    intro hall
    rw [findFirstFile]
    cases hp : fs.is_file p with
    | none => exact ih fun q hq => hall q (by simp [hq])
    | some b =>
      cases b with
      | false => exact ih fun q hq => hall q (by simp [hq])
      | true => exact absurd hp (hall p (by simp))

theorem containsSub_of_append (a pat b : Chars) :
    containsSub pat (a ++ pat ++ b) = true := by
  refine occursAt_containsSub (i := a.length) ?_
  unfold occursAt
  rw [List.append_assoc, List.drop_left]
  exact isPrefixOf_iff_exists.mpr ⟨b, rfl⟩

theorem find_map_update {l : List Workflow} {workflow_id : Int} {w : Workflow}
    (h : l.find? (fun w2 => w2.id = workflow_id) = some w) :
    (l.map (fun w2 =>
      if w2.id = workflow_id then { w2 with status := "pending_ad" } else w2)).find?
      (fun w2 => w2.id = workflow_id) = some { w with status := "pending_ad" } := by
  induction l with
  | nil => cases h
  | cons a l ih =>
    by_cases ha : a.id = workflow_id
    · rw [List.find?_cons_of_pos _ (by simpa using ha)] at h
      cases h
      rw [List.map_cons, if_pos ha, List.find?_cons_of_pos _ (by simpa using ha)]
    · rw [List.find?_cons_of_neg _ (by simpa using ha)] at h
      rw [List.map_cons, if_neg ha, List.find?_cons_of_neg _ (by simpa using ha)]
      exact ih h

theorem batchPages_map_template_id {workflow_id : Int} {video_ids : List Int} :
    ∀ (ts : List Template) (n : Int),
    (batchPages workflow_id video_ids ts n).map (fun p => p.template_id)
      = ts.map (fun t => t.id) := by
  intro ts
  induction ts with
  | nil => intro n; rfl
  | cons t rest ih => intro n; simp [batchPages, ih]

theorem batchPages_map_pair {workflow_id : Int} {video_ids : List Int} :
    ∀ (ts : List Template) (n : Int),
    (batchPages workflow_id video_ids ts n).map (fun p => (p.workflow_id, p.template_id))
      = ts.map (fun t => (workflow_id, t.id)) := by
  intro ts
  induction ts with
  | nil => intro n; rfl
  | cons t rest ih => intro n; simp [batchPages, ih]

theorem batchPages_mem {workflow_id : Int} {video_ids : List Int} :
    ∀ {ts : List Template} {n : Int} {p : LandingPage},
    p ∈ batchPages workflow_id video_ids ts n →
    p.workflow_id = workflow_id
    ∧ ∃ t ∈ ts, p.template_id = t.id
        ∧ p.selected_video_ids = video_ids.take t.max_videos
        ∧ p.generated_page_url = "/generated/" ++ intStr workflow_id ++ "/"
            ++ intStr p.id ++ ".html" := by
  intro ts
  induction ts with
  | nil => intro n p hp; cases hp
  | cons t rest ih =>
    intro n p hp
    rw [batchPages] at hp
    rcases List.mem_cons.mp hp with rfl | hp
    · exact ⟨rfl, t, by simp, rfl, rfl, rfl⟩
    · rcases ih hp with ⟨h1, t', ht', h2⟩
      exact ⟨h1, t', by simp [ht'], h2⟩

theorem found_ids_characterization {db : DB} {ids : List Int}
    (hnodup : templatesNodup db)
    (hcount : (db.templates.filter (fun t => t.id ∈ ids)).length = ids.dedup.length) :
    ((db.templates.filter (fun t => t.id ∈ ids)).map (fun t => t.id)).Nodup
    ∧ ∀ x, (x ∈ (db.templates.filter (fun t => t.id ∈ ids)).map (fun t => t.id)
        ↔ x ∈ ids) := by
  have hsub : List.Sublist ((db.templates.filter (fun t => t.id ∈ ids)).map (fun t => t.id))
      (db.templates.map (fun t => t.id)) := (List.filter_sublist _).map _
  have hnod : ((db.templates.filter (fun t => t.id ∈ ids)).map (fun t => t.id)).Nodup :=
    hnodup.sublist hsub
  have hsubset : (db.templates.filter (fun t => t.id ∈ ids)).map (fun t => t.id)
      ⊆ ids.dedup := by
    intro x hx
    rcases List.mem_map.mp hx with ⟨t, ht, rfl⟩
    rcases List.mem_filter.mp ht with ⟨_, hmem⟩
    exact List.mem_dedup.mpr (by simpa using hmem)
  have hperm : List.Perm ((db.templates.filter (fun t => t.id ∈ ids)).map
      (fun t => t.id)) ids.dedup := by
    refine (hnod.subperm hsubset).perm_of_length_le ?_
    rw [List.length_map, hcount]
  refine ⟨hnod, fun x => ?_⟩
  rw [hperm.mem_iff, List.mem_dedup]

/-! ### Preview stage lemmas -/

theorem preview_db_unchanged (fs : FS) (env : Env) (db : DB)
    (payload : WorkflowPreviewRequest) (token : String) :
    (preview_landing_page fs env db payload token).2.1 = db := by
  unfold preview_landing_page
  cases hfind : db.templates.find? (fun t => t.id = payload.template_id) with
  | none => rfl
  | some t =>
    simp only []
    by_cases hlen : payload.video_ids.length < t.max_videos
    · rw [if_pos hlen]
    · rw [if_neg hlen]
      cases hres : resolve_html_path fs env t.html_file_path with
      | none => rfl
      | some hp =>
        simp only [hres]
        cases hread : fs.read_text hp with
        | none => rfl
        | some html =>
          simp only [hread]
          by_cases hw : fs.write_ok (env.generated_root ++ "/preview/"
              ++ (intStr t.id ++ "_" ++ token ++ ".html")) = true
          · rw [if_pos hw]
          · rw [if_neg hw]

theorem preview_capacity {fs env db payload token t}
    (hfind : db.templates.find? (fun t2 => t2.id = payload.template_id) = some t)
    (hlen : payload.video_ids.length < t.max_videos) :
    preview_landing_page fs env db payload token
      = (.error (.insufficientVideos t.id t.max_videos payload.video_ids.length),
         db, []) := by
  unfold preview_landing_page
  simp only [hfind]
  rw [if_pos hlen]

theorem preview_ok_inv {fs env db payload token url db' ws}
    (h : preview_landing_page fs env db payload token = (.ok url, db', ws)) :
    db' = db
    ∧ ∃ t content,
      db.templates.find? (fun t2 => t2.id = payload.template_id) = some t
      ∧ ws = [(env.generated_root ++ "/preview/"
          ++ (intStr t.id ++ "_" ++ token ++ ".html"), content)]
      ∧ url = "/generated/preview/" ++ (intStr t.id ++ "_" ++ token ++ ".html") := by
  unfold preview_landing_page at h
  cases hfind : db.templates.find? (fun t => t.id = payload.template_id) with
  | none => simp only [hfind] at h; cases h
  | some t =>
    simp only [hfind] at h
    by_cases hlen : payload.video_ids.length < t.max_videos
    · rw [if_pos hlen] at h; cases h
    · rw [if_neg hlen] at h
      cases hres : resolve_html_path fs env t.html_file_path with
      | none => simp only [hres] at h; cases h
      | some hp =>
        simp only [hres] at h
        cases hread : fs.read_text hp with
        | none => simp only [hread] at h; cases h
        | some html =>
          simp only [hread] at h
          split at h
          · cases h
            exact ⟨rfl, t, _, rfl, rfl, rfl⟩
          · cases h

theorem preview_error_writes {fs env db payload token e db' ws}
    (h : preview_landing_page fs env db payload token = (.error e, db', ws)) :
    db' = db ∧ ws = [] := by
  unfold preview_landing_page at h
  cases hfind : db.templates.find? (fun t => t.id = payload.template_id) with
  | none => simp only [hfind] at h; cases h; exact ⟨rfl, rfl⟩
  | some t =>
    simp only [hfind] at h
    by_cases hlen : payload.video_ids.length < t.max_videos
    · rw [if_pos hlen] at h; cases h; exact ⟨rfl, rfl⟩
    · rw [if_neg hlen] at h
      cases hres : resolve_html_path fs env t.html_file_path with
      | none => simp only [hres] at h; cases h; exact ⟨rfl, rfl⟩
      | some hp =>
        simp only [hres] at h
        cases hread : fs.read_text hp with
        | none => simp only [hread] at h; cases h; exact ⟨rfl, rfl⟩
        | some html =>
          simp only [hread] at h
          split at h
          · cases h
          · cases h; exact ⟨rfl, rfl⟩

theorem preview_success {fs env db payload token t hp html}
    (hfind : db.templates.find? (fun t2 => t2.id = payload.template_id) = some t)
    (hlen : ¬ payload.video_ids.length < t.max_videos)
    (hres : resolve_html_path fs env t.html_file_path = some hp)
    (hread : fs.read_text hp = some html)
    (hw : fs.write_ok (env.generated_root ++ "/preview/"
        ++ (intStr t.id ++ "_" ++ token ++ ".html")) = true) :
    preview_landing_page fs env db payload token
      = (.ok ("/generated/preview/" ++ (intStr t.id ++ "_" ++ token ++ ".html")),
         db,
         [(env.generated_root ++ "/preview/"
             ++ (intStr t.id ++ "_" ++ token ++ ".html"),
           String.mk (rewriteHtml (static_prefix_for env t.static_assets_path)
             (payload.video_ids.take t.max_videos) html.data))]) := by
  unfold preview_landing_page
  simp only [hfind]
  rw [if_neg hlen]
  simp only [hres, hread, hw]
  rw [if_pos trivial]

/-! ### Concrete fixtures used by the witnesses -/

def exEnv : Env :=
  { project_root := "/repo/LPS", repo_root := "/repo",
    templates_root := "/repo/LPS/templates",
    generated_root := "/repo/LPS/backend/generated" }

/-- A filesystem with no readable files at all. -/
def fsNone : FS :=
  { is_file := fun _ => some false, read_text := fun _ => none,
    write_ok := fun _ => true }

/-- A filesystem where exactly `templates/a.html` exists. -/
def fsOk : FS :=
  { is_file := fun p => some (p = "/repo/LPS/templates/a.html"),
    read_text := fun p =>
      if p = "/repo/LPS/templates/a.html" then some "<html><body></body></html>"
      else none,
    write_ok := fun _ => true }

def tplA : Template :=
  { id := 1, html_file_path := "a.html", static_assets_path := none, max_videos := 1 }

def tplB : Template :=
  { id := 2, html_file_path := "a.html", static_assets_path := some "home",
    max_videos := 2 }

def tplBig : Template :=
  { id := 3, html_file_path := "a.html", static_assets_path := none, max_videos := 3 }

def dbDraft : DB :=
  { videos := [], templates := [tplA, tplB], workflows := [{ id := 7, status := "draft" }],
    landing_pages := [], next_landing_page_id := 40 }

/-! ### Claim theorems -/

/-- Claim C1: if a generate call fails on any per-template step (template
HTML file not resolvable, file read error, or output write error), then no
LandingPage record from that call is persisted — including records for
templates already processed earlier in the same batch — and the workflow's
status field is unchanged: the database state returned is exactly the state
before the call. -/
theorem C1_per_template_failure_rolls_back
    (fs : FS) (env : Env) (db : DB) (workflow_id : Int)
    (payload : WorkflowGenerateRequest) (e : GenError) (db' : DB)
    (writes : List (String × String))
    (h : generate_landing_pages fs env db workflow_id payload = (.error e, db', writes))
    (hper : (∃ p, e = .htmlFileNotFound p) ∨ e = .htmlFileReadError
        ∨ e = .outputWriteError) :
    db'.landing_pages = db.landing_pages
    ∧ db'.workflows = db.workflows
    ∧ db' = db := by
  have hdb := generate_error_rollback h
  subst hdb
  exact ⟨rfl, rfl, rfl⟩

/-- Witness for C1: a concrete draft workflow and template whose HTML file
resolves nowhere; the call fails with `htmlFileNotFound` and the database
is returned unchanged. -/
theorem C1_witness :
    (generate_landing_pages fsNone exEnv dbDraft 7
        { video_ids := [10, 20, 30], template_ids := [1, 2] }).2.1.landing_pages
      = dbDraft.landing_pages
    ∧ (generate_landing_pages fsNone exEnv dbDraft 7
        { video_ids := [10, 20, 30], template_ids := [1, 2] }).2.1 = dbDraft :=
  ⟨(C1_per_template_failure_rolls_back fsNone exEnv dbDraft 7
      { video_ids := [10, 20, 30], template_ids := [1, 2] }
      (.htmlFileNotFound "a.html") dbDraft [] (by rfl)
      (Or.inl ⟨"a.html", rfl⟩)).1,
   (C1_per_template_failure_rolls_back fsNone exEnv dbDraft 7
      { video_ids := [10, 20, 30], template_ids := [1, 2] }
      (.htmlFileNotFound "a.html") dbDraft [] (by rfl)
      (Or.inl ⟨"a.html", rfl⟩)).2.2⟩

/-- Claim C4: a generate call on an existing workflow whose status is not
exactly "draft" fails with the invalid-state reason before any other
processing: no file is written and the database — the workflow's
LandingPage set and its status — is returned unchanged. -/
theorem C4_non_draft_workflow_rejected
    (fs : FS) (env : Env) (db : DB) (workflow_id : Int)
    (payload : WorkflowGenerateRequest) (w : Workflow)
    (hfind : db.workflows.find? (fun w2 => w2.id = workflow_id) = some w)
    (hdraft : w.status ≠ "draft") :
    generate_landing_pages fs env db workflow_id payload
      = (.error (.workflowNotDraft workflow_id), db, []) :=
  generate_not_draft hfind hdraft

def dbPending : DB :=
  { videos := [], templates := [tplA, tplB],
    workflows := [{ id := 7, status := "pending_ad" }],
    landing_pages := [], next_landing_page_id := 40 }

/-- Witness for C4: a workflow in `pending_ad` rejects generation and its
state is unchanged. -/
theorem C4_witness :
    generate_landing_pages fsOk exEnv dbPending 7
        { video_ids := [10, 20, 30], template_ids := [1, 2] }
      = (.error (.workflowNotDraft 7), dbPending, []) :=
  C4_non_draft_workflow_rejected fsOk exEnv dbPending 7
    { video_ids := [10, 20, 30], template_ids := [1, 2] }
    { id := 7, status := "pending_ad" } (by rfl) (by decide)

/-- Claim C5 (amended): when the number of Template records found differs
from the number of distinct requested ids (duplicates silently collapsed
before the comparison), the call fails with the fixed message
"some templates not found" — which does not identify the missing ids — and
nothing is generated: the database is unchanged and no file is written. -/
theorem C5_missing_templates_generic_failure
    (fs : FS) (env : Env) (db : DB) (workflow_id : Int)
    (payload : WorkflowGenerateRequest) (w : Workflow)
    (hfind : db.workflows.find? (fun w2 => w2.id = workflow_id) = some w)
    (hdraft : w.status = "draft")
    (hcount : (db.templates.filter (fun t => t.id ∈ payload.template_ids)).length
        ≠ payload.template_ids.dedup.length) :
    generate_landing_pages fs env db workflow_id payload
      = (.error .templatesNotFound, db, [])
    ∧ error_message .templatesNotFound = "some templates not found" :=
  ⟨generate_templates_not_found hfind hdraft hcount, rfl⟩

def dbNoTemplates : DB :=
  { videos := [], templates := [], workflows := [{ id := 7, status := "draft" }],
    landing_pages := [], next_landing_page_id := 1 }

/-- Counterexample for C5 as stated: two generate calls missing different
template ids (1 in one call, 2 in the other) fail with the identical
response whose message is the fixed string "some templates not found";
neither missing id's decimal rendering occurs in the message, so the
failure does not identify which requested template ids were not found. -/
theorem C5_counterexample :
    generate_landing_pages fsNone exEnv dbNoTemplates 7
        { video_ids := [10], template_ids := [1] }
      = (.error .templatesNotFound, dbNoTemplates, [])
    ∧ generate_landing_pages fsNone exEnv dbNoTemplates 7
        { video_ids := [10], template_ids := [2] }
      = (.error .templatesNotFound, dbNoTemplates, [])
    ∧ error_message .templatesNotFound = "some templates not found"
    ∧ containsSub (intStr 1).data (error_message .templatesNotFound).data = false
    ∧ containsSub (intStr 2).data (error_message .templatesNotFound).data = false :=
  ⟨by rfl, by rfl, rfl, by decide, by decide⟩

/-- Witness for C5 (amended): concrete application of the amended theorem
at a request naming a template id that does not exist. -/
theorem C5_witness :
    generate_landing_pages fsNone exEnv dbNoTemplates 7
        { video_ids := [10], template_ids := [5] }
      = (.error .templatesNotFound, dbNoTemplates, [])
    ∧ error_message .templatesNotFound = "some templates not found" :=
  C5_missing_templates_generic_failure fsNone exEnv dbNoTemplates 7
    { video_ids := [10], template_ids := [5] }
    { id := 7, status := "draft" } (by rfl) (by rfl) (by decide)

theorem containsSub_data (pat : Chars) (s : String) (a b : Chars)
    (h : s.data = a ++ pat ++ b) : containsSub pat s.data = true :=
  h ▸ containsSub_of_append a pat b

/-- Claim C6: a generate or preview call where some requested template's
`max_videos` exceeds the supplied video-id count fails with a reason
carrying that template's id, its required count and the supplied count
(whose decimal renderings all occur in the message string), the database
is unchanged and no page is generated or persisted. -/
theorem C6_capacity_violation (fs : FS) (env : Env) (db : DB) :
    (∀ (workflow_id : Int) (payload : WorkflowGenerateRequest) (w : Workflow)
        (t : Template),
      db.workflows.find? (fun w2 => w2.id = workflow_id) = some w →
      w.status = "draft" →
      (db.templates.filter (fun t2 => t2.id ∈ payload.template_ids)).length
          = payload.template_ids.dedup.length →
      (db.templates.filter (fun t2 => t2.id ∈ payload.template_ids)).find?
          (fun t2 => payload.video_ids.length < t2.max_videos) = some t →
      generate_landing_pages fs env db workflow_id payload
        = (.error (.insufficientVideos t.id t.max_videos payload.video_ids.length),
           db, []))
    ∧ (∀ (payload : WorkflowPreviewRequest) (token : String) (t : Template),
      db.templates.find? (fun t2 => t2.id = payload.template_id) = some t →
      payload.video_ids.length < t.max_videos →
      preview_landing_page fs env db payload token
        = (.error (.insufficientVideos t.id t.max_videos payload.video_ids.length),
           db, []))
    ∧ (∀ (tid : Int) (req sup : Nat),
      containsSub (intStr tid).data
          (error_message (.insufficientVideos tid req sup)).data = true
      ∧ containsSub (natStr req).data
          (error_message (.insufficientVideos tid req sup)).data = true
      ∧ containsSub (natStr sup).data
          (error_message (.insufficientVideos tid req sup)).data = true) := by
  refine ⟨?_, ?_, ?_⟩
  · intro workflow_id payload w t hfind hdraft hcount hcap
    exact generate_capacity_violation hfind hdraft hcount hcap
  · intro payload token t hfind hlen
    exact preview_capacity hfind hlen
  · intro tid req sup
    refine ⟨?_, ?_, ?_⟩
    · refine containsSub_data _ _ ("模板 ").data
        ((" 需要至少 " ++ natStr req ++ " 个视频，当前仅选择了 "
          ++ natStr sup ++ " 个")).data ?_
      simp [error_message, String.data_append, List.append_assoc]
    · refine containsSub_data _ _ (("模板 " ++ intStr tid ++ " 需要至少 ")).data
        ((" 个视频，当前仅选择了 " ++ natStr sup ++ " 个")).data ?_
      simp [error_message, String.data_append, List.append_assoc]
    · refine containsSub_data _ _
        (("模板 " ++ intStr tid ++ " 需要至少 " ++ natStr req
          ++ " 个视频，当前仅选择了 ")).data (" 个").data ?_
      simp [error_message, String.data_append, List.append_assoc]

def dbCap : DB :=
  { videos := [], templates := [tplBig],
    workflows := [{ id := 7, status := "draft" }],
    landing_pages := [], next_landing_page_id := 1 }

/-- Witness for C6: template 3 requires 3 videos, 2 supplied — both the
generate call and the preview call fail with the violation naming id 3,
required 3, supplied 2, and the message mentions all three numbers. -/
theorem C6_witness :
    generate_landing_pages fsOk exEnv dbCap 7
        { video_ids := [10, 20], template_ids := [3] }
      = (.error (.insufficientVideos 3 3 2), dbCap, [])
    ∧ preview_landing_page fsOk exEnv dbCap
        { video_ids := [10, 20], template_id := 3 } "tok"
      = (.error (.insufficientVideos 3 3 2), dbCap, [])
    ∧ containsSub (intStr 3).data
        (error_message (.insufficientVideos 3 3 2)).data = true :=
  ⟨(C6_capacity_violation fsOk exEnv dbCap).1 7
      { video_ids := [10, 20], template_ids := [3] }
      { id := 7, status := "draft" } tplBig (by rfl) (by rfl) (by decide) (by rfl),
   (C6_capacity_violation fsOk exEnv dbCap).2.1
      { video_ids := [10, 20], template_id := 3 } "tok" tplBig (by rfl) (by decide),
   ((C6_capacity_violation fsOk exEnv dbCap).2.2 3 3 2).1⟩

/-- Claim C3: when the workflow exists in draft, the templates exist with
sufficient videos, but some requested template already has a LandingPage
under this workflow, the call fails with the conflicting template ids
sorted ascending (the list contains exactly the conflicting ids), nothing
is created (database unchanged, no file written); moreover any generate
call preserves uniqueness of (workflow, template) pairs across the stored
landing pages, so no second LandingPage for a pair ever exists. -/
theorem C3_duplicate_guard (fs : FS) (env : Env) (db : DB) (workflow_id : Int)
    (payload : WorkflowGenerateRequest) :
    (∀ w, db.workflows.find? (fun w2 => w2.id = workflow_id) = some w →
      w.status = "draft" →
      (db.templates.filter (fun t => t.id ∈ payload.template_ids)).length
          = payload.template_ids.dedup.length →
      (db.templates.filter (fun t => t.id ∈ payload.template_ids)).find?
          (fun t => payload.video_ids.length < t.max_videos) = none →
      ((db.landing_pages.filter (fun lp =>
          lp.workflow_id = workflow_id ∧ lp.template_id ∈ payload.template_ids)).map
          (fun lp => lp.template_id)).dedup ≠ [] →
      generate_landing_pages fs env db workflow_id payload
        = (.error (.duplicateLandingPages
            ((((db.landing_pages.filter (fun lp =>
              lp.workflow_id = workflow_id
                ∧ lp.template_id ∈ payload.template_ids)).map
              (fun lp => lp.template_id)).dedup).insertionSort (· ≤ ·))), db, [])
      ∧ List.Sorted (· ≤ ·) ((((db.landing_pages.filter (fun lp =>
          lp.workflow_id = workflow_id
            ∧ lp.template_id ∈ payload.template_ids)).map
          (fun lp => lp.template_id)).dedup).insertionSort (· ≤ ·))
      ∧ (∀ x, x ∈ (((db.landing_pages.filter (fun lp =>
          lp.workflow_id = workflow_id
            ∧ lp.template_id ∈ payload.template_ids)).map
          (fun lp => lp.template_id)).dedup).insertionSort (· ≤ ·)
          ↔ x ∈ payload.template_ids
            ∧ ∃ lp ∈ db.landing_pages,
                lp.workflow_id = workflow_id ∧ lp.template_id = x))
    ∧ (templatesNodup db → landingPagePairsNodup db.landing_pages →
       ∀ r db' ws,
         generate_landing_pages fs env db workflow_id payload = (r, db', ws) →
         landingPagePairsNodup db'.landing_pages) := by
  constructor
  · intro w hfind hdraft hcount hcap hex
    refine ⟨generate_duplicate hfind hdraft hcount hcap hex,
      List.sorted_insertionSort _ _, fun x => ?_⟩
    rw [(List.perm_insertionSort _ _).mem_iff, List.mem_dedup]
    constructor
    · intro hx
      rcases List.mem_map.mp hx with ⟨lp, hlp, rfl⟩
      rcases List.mem_filter.mp hlp with ⟨hmem, hcond⟩
      simp only [decide_eq_true_eq] at hcond
      exact ⟨hcond.2, lp, hmem, hcond.1, rfl⟩
    · rintro ⟨hxt, lp, hmem, hwid, rfl⟩
      exact List.mem_map.mpr ⟨lp, List.mem_filter.mpr ⟨hmem, by simp [hwid, hxt]⟩, rfl⟩
  · intro hnodup hpairs r db' ws h
    cases r with
    | error e =>
      have := generate_error_rollback h
      subst this
      exact hpairs
    | ok pages =>
      rcases generate_ok_inv h with ⟨w, next, hfind, hdraft, hcount, hex, hpages, hdb'⟩
      subst hdb'
      subst hpages
      unfold landingPagePairsNodup
      simp only [List.map_append]
      have hfilterempty : ∀ lp2 ∈ db.landing_pages,
          ¬(lp2.workflow_id = workflow_id
            ∧ lp2.template_id ∈ payload.template_ids) := by
        have h1 := (List.dedup_eq_nil _).mp hex
        have h2 := List.map_eq_nil_iff.mp h1
        intro lp2 hlp2 hcond
        have h3 := List.filter_eq_nil_iff.mp h2 lp2 hlp2
        simp [hcond.1, hcond.2] at h3
      refine List.nodup_append.mpr ⟨hpairs, ?_, ?_⟩
      · rw [batchPages_map_pair]
        have hcomp : (db.templates.filter (fun t => t.id ∈ payload.template_ids)).map
            (fun t => (workflow_id, t.id))
            = ((db.templates.filter (fun t => t.id ∈ payload.template_ids)).map
              (fun t => t.id)).map (fun x => (workflow_id, x)) := by
          rw [List.map_map]
          rfl
        rw [hcomp]
        refine List.Nodup.map ?_ ?_
        · intro a b hab
          simpa using hab
        · exact hnodup.sublist ((List.filter_sublist _).map _)
      · intro a ha hb
        rw [batchPages_map_pair] at hb
        rcases List.mem_map.mp ha with ⟨lp, hlp, rfl⟩
        rcases List.mem_map.mp hb with ⟨t, ht, hpair⟩
        rcases List.mem_filter.mp ht with ⟨_, htid⟩
        have h1 : workflow_id = lp.workflow_id := congrArg Prod.fst hpair
        have h2 : t.id = lp.template_id := congrArg Prod.snd hpair
        refine hfilterempty lp hlp ⟨h1.symm, ?_⟩
        rw [← h2]
        simpa using htid

def dbDup : DB :=
  { videos := [], templates := [tplA, tplB],
    workflows := [{ id := 7, status := "draft" }],
    landing_pages :=
      [{ id := 31, workflow_id := 7, template_id := 1, selected_video_ids := [10],
         generated_page_url := "/generated/7/31.html" },
       { id := 32, workflow_id := 7, template_id := 2, selected_video_ids := [10, 20],
         generated_page_url := "/generated/7/32.html" }],
    next_landing_page_id := 33 }

/-- Witness for C3: both requested templates already have landing pages
under workflow 7; the call fails listing [1, 2] (sorted ascending, request
order was [2, 1]), the database is unchanged, and pair uniqueness holds. -/
theorem C3_witness :
    generate_landing_pages fsOk exEnv dbDup 7
        { video_ids := [10, 20, 30], template_ids := [2, 1] }
      = (.error (.duplicateLandingPages [1, 2]), dbDup, [])
    ∧ landingPagePairsNodup dbDup.landing_pages :=
  ⟨((C3_duplicate_guard fsOk exEnv dbDup 7
      { video_ids := [10, 20, 30], template_ids := [2, 1] }).1
      { id := 7, status := "draft" } (by rfl) (by rfl) (by decide) (by rfl)
      (by decide)).1,
   (C3_duplicate_guard fsOk exEnv dbDup 7
      { video_ids := [10, 20, 30], template_ids := [2, 1] }).2
      (by unfold templatesNodup; decide)
      (by unfold landingPagePairsNodup; decide)
      (.error (.duplicateLandingPages [1, 2])) dbDup []
      (by rfl)⟩

/-- Claim C2: when every precondition holds and every per-template step
succeeds, the call returns ok and commits, in one returned state, exactly
one LandingPage per requested template (the created pages' template ids
enumerate the requested set without repetition) together with the workflow
transition draft → pending_ad; each page stores the first `max_videos` ids
of the supplied ordered list for its template, and each page's URL is the
generated-content root, the workflow id and that landing page's id. -/
theorem C2_full_success_commits_batch
    (fs : FS) (env : Env) (db : DB) (workflow_id : Int)
    (payload : WorkflowGenerateRequest) (w : Workflow)
    (hfind : db.workflows.find? (fun w2 => w2.id = workflow_id) = some w)
    (hdraft : w.status = "draft")
    (hnodup : templatesNodup db)
    (hcount : (db.templates.filter (fun t => t.id ∈ payload.template_ids)).length
        = payload.template_ids.dedup.length)
    (hcap : ∀ t ∈ db.templates.filter (fun t => t.id ∈ payload.template_ids),
        t.max_videos ≤ payload.video_ids.length)
    (hex : ((db.landing_pages.filter (fun lp =>
        lp.workflow_id = workflow_id ∧ lp.template_id ∈ payload.template_ids)).map
        (fun lp => lp.template_id)).dedup = [])
    (hfs : ∀ t ∈ db.templates.filter (fun t => t.id ∈ payload.template_ids),
        ((resolve_html_path fs env t.html_file_path).bind fs.read_text).isSome)
    (hw : ∀ p, fs.write_ok p = true) :
    ∃ ws,
      generate_landing_pages fs env db workflow_id payload
        = (.ok (batchPages workflow_id payload.video_ids
              (db.templates.filter (fun t => t.id ∈ payload.template_ids))
              db.next_landing_page_id),
           { db with
               workflows := db.workflows.map (fun w2 =>
                 if w2.id = workflow_id then { w2 with status := "pending_ad" }
                 else w2),
               landing_pages := db.landing_pages
                 ++ batchPages workflow_id payload.video_ids
                     (db.templates.filter (fun t => t.id ∈ payload.template_ids))
                     db.next_landing_page_id,
               next_landing_page_id := db.next_landing_page_id
                 + (db.templates.filter
                     (fun t => t.id ∈ payload.template_ids)).length },
           ws)
      ∧ (batchPages workflow_id payload.video_ids
          (db.templates.filter (fun t => t.id ∈ payload.template_ids))
          db.next_landing_page_id).map (fun p => p.template_id)
        = (db.templates.filter (fun t => t.id ∈ payload.template_ids)).map
            (fun t => t.id)
      ∧ ((db.templates.filter (fun t => t.id ∈ payload.template_ids)).map
          (fun t => t.id)).Nodup
      ∧ (∀ x, x ∈ (db.templates.filter (fun t => t.id ∈ payload.template_ids)).map
            (fun t => t.id)
          ↔ x ∈ payload.template_ids)
      ∧ (∀ p ∈ batchPages workflow_id payload.video_ids
            (db.templates.filter (fun t => t.id ∈ payload.template_ids))
            db.next_landing_page_id,
          p.workflow_id = workflow_id
          ∧ ∃ t ∈ db.templates.filter (fun t => t.id ∈ payload.template_ids),
              p.template_id = t.id
              ∧ p.selected_video_ids = payload.video_ids.take t.max_videos
              ∧ p.generated_page_url = "/generated/" ++ intStr workflow_id ++ "/"
                  ++ intStr p.id ++ ".html")
      ∧ (db.workflows.map (fun w2 =>
          if w2.id = workflow_id then { w2 with status := "pending_ad" }
          else w2)).find? (fun w2 => w2.id = workflow_id)
          = some { w with status := "pending_ad" } := by
  have hcapn : (db.templates.filter (fun t => t.id ∈ payload.template_ids)).find?
      (fun t => payload.video_ids.length < t.max_videos) = none :=
    List.find?_eq_none.mpr (fun t ht => by simpa using Nat.not_lt.mpr (hcap t ht))
  rcases processTemplates_ok_of hw
      (db.templates.filter (fun t => t.id ∈ payload.template_ids))
      db.next_landing_page_id hfs with ⟨ws, hproc⟩
  refine ⟨ws, generate_success hfind hdraft hcount hcapn hex hproc,
    batchPages_map_template_id _ _,
    (found_ids_characterization hnodup hcount).1,
    (found_ids_characterization hnodup hcount).2,
    fun p hp => batchPages_mem hp,
    find_map_update hfind⟩

/-- Witness for C2: the end-to-end example — workflow 7 in draft, two
templates with `max_videos` 1 and 2, supplied ids [10, 20, 30]; the call
commits pages with selections [10] and [10, 20], ids 40 and 41, URLs
`/generated/7/40.html` and `/generated/7/41.html`, and the workflow moves
to pending_ad in the same returned state. -/
theorem C2_witness :
    ∃ ws,
      generate_landing_pages fsOk exEnv dbDraft 7
          { video_ids := [10, 20, 30], template_ids := [1, 2] }
        = (.ok
            [{ id := 40, workflow_id := 7, template_id := 1,
               selected_video_ids := [10],
               generated_page_url := "/generated/7/40.html" },
             { id := 41, workflow_id := 7, template_id := 2,
               selected_video_ids := [10, 20],
               generated_page_url := "/generated/7/41.html" }],
           { videos := [], templates := [tplA, tplB],
             workflows := [{ id := 7, status := "pending_ad" }],
             landing_pages :=
               [{ id := 40, workflow_id := 7, template_id := 1,
                  selected_video_ids := [10],
                  generated_page_url := "/generated/7/40.html" },
                { id := 41, workflow_id := 7, template_id := 2,
                  selected_video_ids := [10, 20],
                  generated_page_url := "/generated/7/41.html" }],
             next_landing_page_id := 42 },
           ws) := by
  rcases C2_full_success_commits_batch fsOk exEnv dbDraft 7
      { video_ids := [10, 20, 30], template_ids := [1, 2] }
      { id := 7, status := "draft" } (by rfl) (by rfl)
      (by unfold templatesNodup; decide) (by decide) (by decide) (by rfl)
      (by decide) (fun p => rfl) with ⟨ws, h1, _⟩
  exact ⟨ws, h1⟩

/-- Claim C10: the supplied video ids are never checked against the Video
store, in generate and in preview alike: both calls are invariant under
replacing the stored Video rows (same response, same writes, same state up
to that replacement); under the stated preconditions the generate call
succeeds with each stored selection equal to the truncated input list, and
the preview call succeeds writing a page whose embedded selection is the
truncated input list — even when no supplied id matches any Video row. -/
theorem C10_video_ids_never_checked
    (fs : FS) (env : Env) (db : DB) (workflow_id : Int)
    (payload : WorkflowGenerateRequest) :
    (∀ vs : List Video,
      generate_landing_pages fs env { db with videos := vs } workflow_id payload
        = ((generate_landing_pages fs env db workflow_id payload).1,
           { (generate_landing_pages fs env db workflow_id payload).2.1 with
               videos := vs },
           (generate_landing_pages fs env db workflow_id payload).2.2))
    ∧ (∀ w, db.workflows.find? (fun w2 => w2.id = workflow_id) = some w →
      w.status = "draft" →
      (db.templates.filter (fun t => t.id ∈ payload.template_ids)).length
          = payload.template_ids.dedup.length →
      (∀ t ∈ db.templates.filter (fun t => t.id ∈ payload.template_ids),
        t.max_videos ≤ payload.video_ids.length) →
      ((db.landing_pages.filter (fun lp =>
          lp.workflow_id = workflow_id ∧ lp.template_id ∈ payload.template_ids)).map
          (fun lp => lp.template_id)).dedup = [] →
      (∀ t ∈ db.templates.filter (fun t => t.id ∈ payload.template_ids),
        ((resolve_html_path fs env t.html_file_path).bind fs.read_text).isSome) →
      (∀ p, fs.write_ok p = true) →
      (∀ i ∈ payload.video_ids, ∀ v ∈ db.videos, v.id ≠ i) →
      ∃ ws,
        generate_landing_pages fs env db workflow_id payload
          = (.ok (batchPages workflow_id payload.video_ids
                (db.templates.filter (fun t => t.id ∈ payload.template_ids))
                db.next_landing_page_id),
             { db with
                 workflows := db.workflows.map (fun w2 =>
                   if w2.id = workflow_id then { w2 with status := "pending_ad" }
                   else w2),
                 landing_pages := db.landing_pages
                   ++ batchPages workflow_id payload.video_ids
                       (db.templates.filter (fun t => t.id ∈ payload.template_ids))
                       db.next_landing_page_id,
                 next_landing_page_id := db.next_landing_page_id
                   + (db.templates.filter
                       (fun t => t.id ∈ payload.template_ids)).length },
             ws)
        ∧ ∀ p ∈ batchPages workflow_id payload.video_ids
              (db.templates.filter (fun t => t.id ∈ payload.template_ids))
              db.next_landing_page_id,
            ∃ t ∈ db.templates.filter (fun t => t.id ∈ payload.template_ids),
              p.template_id = t.id
              ∧ p.selected_video_ids = payload.video_ids.take t.max_videos)
    ∧ (∀ (vs : List Video) (payload2 : WorkflowPreviewRequest) (token : String),
      preview_landing_page fs env { db with videos := vs } payload2 token
        = ((preview_landing_page fs env db payload2 token).1,
           { db with videos := vs },
           (preview_landing_page fs env db payload2 token).2.2))
    ∧ (∀ (payload2 : WorkflowPreviewRequest) (token : String) (t : Template),
      db.templates.find? (fun t2 => t2.id = payload2.template_id) = some t →
      ¬ payload2.video_ids.length < t.max_videos →
      ∀ (hp html : String),
        resolve_html_path fs env t.html_file_path = some hp →
        fs.read_text hp = some html →
        fs.write_ok (env.generated_root ++ "/preview/"
          ++ (intStr t.id ++ "_" ++ token ++ ".html")) = true →
        (∀ i ∈ payload2.video_ids, ∀ v ∈ db.videos, v.id ≠ i) →
        preview_landing_page fs env db payload2 token
          = (.ok ("/generated/preview/"
                ++ (intStr t.id ++ "_" ++ token ++ ".html")),
             db,
             [(env.generated_root ++ "/preview/"
                 ++ (intStr t.id ++ "_" ++ token ++ ".html"),
               String.mk (rewriteHtml (static_prefix_for env t.static_assets_path)
                 (payload2.video_ids.take t.max_videos) html.data))])) := by
  refine ⟨?_, ?_, ?_, ?_⟩
  · intro vs
    unfold generate_landing_pages
    simp only [show ({ db with videos := vs } : DB).workflows = db.workflows from rfl,
      show ({ db with videos := vs } : DB).templates = db.templates from rfl,
      show ({ db with videos := vs } : DB).landing_pages = db.landing_pages from rfl,
      show ({ db with videos := vs } : DB).next_landing_page_id
        = db.next_landing_page_id from rfl]
    cases hfind : db.workflows.find? (fun w2 => w2.id = workflow_id) with
    | none => rfl
    | some w =>
      simp only []
      by_cases hdraft : w.status ≠ "draft"
      · simp only [if_pos hdraft]
      · simp only [if_neg hdraft]
        by_cases hcount : (db.templates.filter
            (fun t => t.id ∈ payload.template_ids)).length
            ≠ payload.template_ids.dedup.length
        · simp only [if_pos hcount]
        · simp only [if_neg hcount]
          cases hcap : (db.templates.filter
              (fun t => t.id ∈ payload.template_ids)).find?
              (fun t => payload.video_ids.length < t.max_videos) with
          | some t => rfl
          | none =>
            simp only []
            by_cases hex : ((db.landing_pages.filter (fun lp =>
                lp.workflow_id = workflow_id
                  ∧ lp.template_id ∈ payload.template_ids)).map
                (fun lp => lp.template_id)).dedup ≠ []
            · simp only [if_pos hex]
            · simp only [if_neg hex]
              cases hproc : processTemplates fs env workflow_id payload.video_ids
                  (db.templates.filter (fun t => t.id ∈ payload.template_ids))
                  db.next_landing_page_id with
              | fail e ws2 => rfl
              | ok pages next ws2 => rfl
  · intro w hfind hdraft hcount hcap hex hfs hw _
    have hcapn : (db.templates.filter (fun t => t.id ∈ payload.template_ids)).find?
        (fun t => payload.video_ids.length < t.max_videos) = none :=
      List.find?_eq_none.mpr (fun t ht => by simpa using Nat.not_lt.mpr (hcap t ht))
    rcases processTemplates_ok_of hw
        (db.templates.filter (fun t => t.id ∈ payload.template_ids))
        db.next_landing_page_id hfs with ⟨ws, hproc⟩
    refine ⟨ws, generate_success hfind hdraft hcount hcapn hex hproc,
      fun p hp => ?_⟩
    rcases (batchPages_mem hp).2 with ⟨t, ht, h1, h2, _⟩
    exact ⟨t, ht, h1, h2⟩
  · intro vs payload2 token
    unfold preview_landing_page
    simp only [show ({ db with videos := vs } : DB).templates = db.templates from rfl]
    cases hfind : db.templates.find? (fun t2 => t2.id = payload2.template_id) with
    | none => rfl
    | some t =>
      simp only []
      by_cases hlen : payload2.video_ids.length < t.max_videos
      · simp only [if_pos hlen]
      · simp only [if_neg hlen]
        cases hres : resolve_html_path fs env t.html_file_path with
        | none => rfl
        | some hp =>
          simp only [hres]
          cases hread : fs.read_text hp with
          | none => rfl
          | some html =>
            simp only [hread]
            by_cases hw2 : fs.write_ok (env.generated_root ++ "/preview/"
                ++ (intStr t.id ++ "_" ++ token ++ ".html")) = true
            · simp only [if_pos hw2]
            · simp only [if_neg hw2]
  · intro payload2 token t hfind hlen hp html hres hread hw2 _
    exact preview_success hfind hlen hres hread hw2

def pgA : LandingPage :=
  { id := 40, workflow_id := 7, template_id := 1, selected_video_ids := [10],
    generated_page_url := "/generated/7/40.html" }

def pgB : LandingPage :=
  { id := 41, workflow_id := 7, template_id := 2, selected_video_ids := [10, 20],
    generated_page_url := "/generated/7/41.html" }

def dbV99 : DB := { dbDraft with videos := [{ id := 99 }] }

/-- Witness for C10: replacing the Video store of the draft database with a
single unrelated row (id 99) changes nothing in either call but the stored
rows; the generate call still succeeds with selections [10] and [10, 20],
and the preview call succeeds writing a page embedding the selection [10] —
although none of the supplied ids 10, 20, 30 exists in the Video store. -/
theorem C10_witness :
    generate_landing_pages fsOk exEnv dbV99 7
        { video_ids := [10, 20, 30], template_ids := [1, 2] }
      = ((generate_landing_pages fsOk exEnv dbDraft 7
            { video_ids := [10, 20, 30], template_ids := [1, 2] }).1,
         { (generate_landing_pages fsOk exEnv dbDraft 7
              { video_ids := [10, 20, 30], template_ids := [1, 2] }).2.1 with
             videos := [{ id := 99 }] },
         (generate_landing_pages fsOk exEnv dbDraft 7
            { video_ids := [10, 20, 30], template_ids := [1, 2] }).2.2)
    ∧ (∃ ws,
        generate_landing_pages fsOk exEnv dbV99 7
            { video_ids := [10, 20, 30], template_ids := [1, 2] }
          = (.ok [pgA, pgB],
             { videos := [{ id := 99 }], templates := [tplA, tplB],
               workflows := [{ id := 7, status := "pending_ad" }],
               landing_pages := [pgA, pgB], next_landing_page_id := 42 },
             ws))
    ∧ preview_landing_page fsOk exEnv dbV99
          { video_ids := [10, 20, 30], template_id := 1 } "tok"
        = ((preview_landing_page fsOk exEnv dbDraft
              { video_ids := [10, 20, 30], template_id := 1 } "tok").1,
           { dbDraft with videos := [{ id := 99 }] },
           (preview_landing_page fsOk exEnv dbDraft
              { video_ids := [10, 20, 30], template_id := 1 } "tok").2.2)
    ∧ preview_landing_page fsOk exEnv dbV99
          { video_ids := [10, 20, 30], template_id := 1 } "tok"
        = (.ok "/generated/preview/1_tok.html", dbV99,
           [("/repo/LPS/backend/generated/preview/1_tok.html",
             String.mk (rewriteHtml "/templates" [10]
               ("<html><body></body></html>").data))]) :=
  ⟨(C10_video_ids_never_checked fsOk exEnv dbDraft 7
      { video_ids := [10, 20, 30], template_ids := [1, 2] }).1 [{ id := 99 }],
   by
    rcases (C10_video_ids_never_checked fsOk exEnv dbV99 7
        { video_ids := [10, 20, 30], template_ids := [1, 2] }).2.1
        { id := 7, status := "draft" } (by rfl) rfl (by decide) (by decide)
        (by rfl) (by decide) (fun p => rfl) (by decide) with ⟨ws, h1, _⟩
    exact ⟨ws, h1⟩,
   (C10_video_ids_never_checked fsOk exEnv dbDraft 7
      { video_ids := [10, 20, 30], template_ids := [1, 2] }).2.2.1 [{ id := 99 }]
      { video_ids := [10, 20, 30], template_id := 1 } "tok",
   (C10_video_ids_never_checked fsOk exEnv dbV99 7
      { video_ids := [10, 20, 30], template_ids := [1, 2] }).2.2.2
      { video_ids := [10, 20, 30], template_id := 1 } "tok" tplA (by rfl)
      (by decide) "/repo/LPS/templates/a.html" "<html><body></body></html>"
      (by rfl) (by rfl) (by rfl) (by decide)⟩

/-- Claim C7: resolution builds exactly the four candidates in the fixed
order — the path as given, then joined under the project root, the
repository root, and the templates root — returns the first candidate that
is a regular file (a path existing under several roots resolves to the
higher-priority one), and when none is a regular file the per-template
failure carries the original unresolved path string. -/
theorem C7_path_resolution_priority (fs : FS) (env : Env) (raw : String) :
    candidatePaths env raw
      = [raw, pathJoin env.project_root raw, pathJoin env.repo_root raw,
         pathJoin env.templates_root raw]
    ∧ (∀ (i : Nat) (hi : i < (candidatePaths env raw).length),
        fs.is_file ((candidatePaths env raw).get ⟨i, hi⟩) = some true →
        (∀ j, (hj : j < i) →
          fs.is_file ((candidatePaths env raw).get ⟨j, Nat.lt_trans hj hi⟩)
            ≠ some true) →
        resolve_html_path fs env raw = some ((candidatePaths env raw).get ⟨i, hi⟩))
    ∧ ((∀ p ∈ candidatePaths env raw, fs.is_file p ≠ some true) →
        resolve_html_path fs env raw = none)
    ∧ (∀ (workflow_id : Int) (video_ids : List Int) (t : Template)
        (rest : List Template) (n : Int),
        t.html_file_path = raw →
        resolve_html_path fs env raw = none →
        processTemplates fs env workflow_id video_ids (t :: rest) n
          = .fail (.htmlFileNotFound raw) []
        ∧ error_message (.htmlFileNotFound raw)
          = "template html file not found for path: " ++ raw) := by
  refine ⟨rfl, ?_, ?_, ?_⟩
  · intro i hi hfile hbefore
    exact findFirstFile_at hi hfile hbefore
  · intro hall
    exact findFirstFile_none hall
  · intro workflow_id video_ids t rest n hpath hres
    subst hpath
    exact ⟨by rw [processTemplates]; simp only [hres], rfl⟩

/-- A filesystem where `x.html` exists both under the repository root and
under the templates root. -/
def fsTwo : FS :=
  { is_file := fun p =>
      some (p = "/repo/x.html" ∨ p = "/repo/LPS/templates/x.html"),
    read_text := fun _ => none, write_ok := fun _ => true }

/-- Witness for C7: with `x.html` present under both the repository root
(priority 3) and the templates root (priority 4), resolution returns the
repository-root candidate; and an unresolvable path makes the per-template
loop fail carrying the stored path string. -/
theorem C7_witness :
    resolve_html_path fsTwo exEnv "x.html" = some "/repo/x.html"
    ∧ processTemplates fsNone exEnv 7 [10] [tplA] 1
      = .fail (.htmlFileNotFound "a.html") [] := by
  constructor
  · have hi : (2 : Nat) < (candidatePaths exEnv "x.html").length := by decide
    have hfile : fsTwo.is_file ((candidatePaths exEnv "x.html").get ⟨2, hi⟩)
        = some true := by
      show fsTwo.is_file "/repo/x.html" = some true
      decide
    have hbefore : ∀ j, (hj : j < 2) →
        fsTwo.is_file ((candidatePaths exEnv "x.html").get
          ⟨j, Nat.lt_trans hj hi⟩) ≠ some true := by
      intro j hj
      interval_cases j
      · show fsTwo.is_file "x.html" ≠ some true
        decide
      · show fsTwo.is_file "/repo/LPS/x.html" ≠ some true
        decide
    exact (C7_path_resolution_priority fsTwo exEnv "x.html").2.1 2 hi hfile hbefore
  · exact ((C7_path_resolution_priority fsNone exEnv "a.html").2.2.2 7 [10] tplA [] 1
      rfl (by rfl)).1

/-- Claim C8: for every input HTML text and ordered selection (including
the empty one), the rewriter inserts the script tag — whose body is the
JSON-encoded array of exactly the ordered selected ids — immediately before
the first occurrence of `</body>` (only the first occurrence, with a
newline between the tag and `</body>`), appends the tag to the end of the
document when no `</body>` occurs, and parsing the injected JSON yields
exactly the ordered input id list, `[]` for the empty case. -/
theorem C8_script_injection (html : Chars) (ids : List Int) :
    (∀ i, occursAt bodyClose html i →
      (∀ j, j < i → ¬ occursAt bodyClose html j) →
      injectSnippet ids html
        = html.take i ++ scriptSnippet ids ++ '\n' :: html.drop i)
    ∧ ((∀ i, ¬ occursAt bodyClose html i) →
        injectSnippet ids html = html ++ scriptSnippet ids)
    ∧ jsonParseInts (jsonDumpsInts ids) = some ids
    ∧ scriptSnippet ids
      = ("<script id=\"lps-selected-videos\" type=\"application/json\">").data
        ++ (jsonDumpsInts ids).data ++ ("</script>").data := by
  refine ⟨?_, ?_, jsonParseInts_jsonDumpsInts ids, ?_⟩
  · intro i hocc hfirst
    unfold injectSnippet
    rw [if_pos (occursAt_containsSub hocc)]
    rw [replaceFirst_first_occ (by decide) hocc hfirst]
    rcases isPrefixOf_iff_exists.mp hocc with ⟨tail, htail⟩
    have hdrop : html.drop (i + bodyClose.length) = tail := by
      have h1 : html.drop (i + bodyClose.length)
          = (html.drop i).drop bodyClose.length := by
        rw [List.drop_drop]
      rw [h1, htail, List.drop_left]
    rw [hdrop, htail]
    simp [List.append_assoc]
  · intro hno
    unfold injectSnippet
    rw [if_neg ?_]
    intro hc
    rcases containsSub_occursAt hc with ⟨i, hi⟩
    exact hno i hi
  · show scriptSnippet ids = _
    unfold scriptSnippet
    simp [String.data_append]

/-- Witness for C8: a document with two `</body>` tags — injection happens
only at the first one; and the JSON body round-trips for [10, 20] and []. -/
theorem C8_witness :
    injectSnippet [10, 20] ("<body>A</body>B</body>").data
      = ("<body>A").data ++ scriptSnippet [10, 20]
        ++ '\n' :: ("</body>B</body>").data
    ∧ jsonParseInts (jsonDumpsInts [10, 20]) = some [10, 20]
    ∧ jsonParseInts (jsonDumpsInts []) = some [] :=
  ⟨(C8_script_injection ("<body>A</body>B</body>").data [10, 20]).1 7
      (by decide) (by decide),
   (C8_script_injection ("<body>A</body>B</body>").data [10, 20]).2.2.1,
   (C8_script_injection [] []).2.2.1⟩

/-- Claim C9: a preview call never changes the database — no LandingPage,
no Workflow status, no other record — whether it succeeds or fails; a
successful preview's only effect is one file written under the preview
directory, named by the template id and the fresh random token (distinct
tokens give distinct paths, so a prior preview is never overwritten), a
failed preview writes nothing. -/
theorem C9_preview_touches_no_records (fs : FS) (env : Env) (db : DB)
    (payload : WorkflowPreviewRequest) (token : String) :
    (preview_landing_page fs env db payload token).2.1 = db
    ∧ (∀ url db' ws,
        preview_landing_page fs env db payload token = (.ok url, db', ws) →
        db' = db
        ∧ ∃ t content,
            db.templates.find? (fun t2 => t2.id = payload.template_id) = some t
            ∧ ws = [(env.generated_root ++ "/preview/"
                ++ (intStr t.id ++ "_" ++ token ++ ".html"), content)]
            ∧ url = "/generated/preview/"
                ++ (intStr t.id ++ "_" ++ token ++ ".html"))
    ∧ (∀ e db' ws,
        preview_landing_page fs env db payload token = (.error e, db', ws) →
        db' = db ∧ ws = [])
    ∧ (∀ (tid : Int) (token₁ token₂ : String), token₁ ≠ token₂ →
        env.generated_root ++ "/preview/" ++ (intStr tid ++ "_" ++ token₁ ++ ".html")
          ≠ env.generated_root ++ "/preview/"
            ++ (intStr tid ++ "_" ++ token₂ ++ ".html")) := by
  refine ⟨preview_db_unchanged fs env db payload token, ?_, ?_, ?_⟩
  · intro url db' ws h
    rcases preview_ok_inv h with ⟨hdb, t, content, hfind, hws, hurl⟩
    exact ⟨hdb, t, content, hfind, hws, hurl⟩
  · intro e db' ws h
    exact preview_error_writes h
  · intro tid token₁ token₂ hne heq
    apply hne
    have hdata := congrArg String.data heq
    simp only [String.data_append, List.append_assoc] at hdata
    have h1 := List.append_cancel_left hdata
    have h2 := List.append_cancel_left h1
    have h3 := List.append_cancel_left h2
    have h4 := List.append_cancel_left h3
    have h5 := List.append_cancel_right h4
    cases token₁
    cases token₂
    exact congrArg String.mk h5

/-- Witness for C9: a concrete successful preview of template 1 with token
"tok" — the database is returned unchanged, exactly one file is written
under the preview directory at `1_tok.html`, and a different token "tok2"
yields a different path. -/
theorem C9_witness :
    (preview_landing_page fsOk exEnv dbDraft
        { video_ids := [10, 20, 30], template_id := 1 } "tok").2.1 = dbDraft
    ∧ (∃ t content,
        dbDraft.templates.find? (fun t2 => t2.id = 1) = some t
        ∧ [("/repo/LPS/backend/generated/preview/1_tok.html",
            String.mk (rewriteHtml "/templates" [10]
              ("<html><body></body></html>").data))]
          = [(exEnv.generated_root ++ "/preview/"
              ++ (intStr t.id ++ "_" ++ "tok" ++ ".html"), content)]
        ∧ "/generated/preview/1_tok.html"
          = "/generated/preview/" ++ (intStr t.id ++ "_" ++ "tok" ++ ".html"))
    ∧ exEnv.generated_root ++ "/preview/" ++ (intStr 1 ++ "_" ++ "tok" ++ ".html")
      ≠ exEnv.generated_root ++ "/preview/" ++ (intStr 1 ++ "_" ++ "tok2" ++ ".html") := by
  refine ⟨(C9_preview_touches_no_records fsOk exEnv dbDraft
      { video_ids := [10, 20, 30], template_id := 1 } "tok").1, ?_,
    (C9_preview_touches_no_records fsOk exEnv dbDraft
      { video_ids := [10, 20, 30], template_id := 1 } "tok").2.2.2 1 "tok" "tok2"
      (by decide)⟩
  exact ((C9_preview_touches_no_records fsOk exEnv dbDraft
      { video_ids := [10, 20, 30], template_id := 1 } "tok").2.1
      "/generated/preview/1_tok.html" dbDraft
      [("/repo/LPS/backend/generated/preview/1_tok.html",
        String.mk (rewriteHtml "/templates" [10]
          ("<html><body></body></html>").data))] (by rfl)).2
